import Mathlib

/-!
# Verification of the sockjs-tornado session machinery

A shallow embedding of the SockJS server library (`sockjs/tornado/…`).
Python classes become Lean structures, methods become pure functions with
explicit state passing, and exceptions are `Except` results.
Timestamps (Python float seconds since the epoch) are embedded as
integers: every comparison and update the session code performs on
them is order/additive, so an ordered additive domain is all that the
semantics uses.  Side effects observable by the
client or the application (frames handed to a transport's `send`,
connection callbacks) are returned as explicit lists of frames / events.

Sources embedded here:
* `sockjs/tornado/session/base.py` — `StateMixin`, `TransportMixin`,
  `ExpiryMixin`, `BaseSession`
* `sockjs/tornado/session/__init__.py` — `Session` (list buffer)
* `sockjs/tornado/session/pool.py` — `SessionPool`
* `sockjs/tornado/server.py` — `Endpoint`
* `sockjs/tornado/transport/base.py` — `BaseTransport`,
  `StreamingTransport`
* `sockjs/tornado/transport/websocket.py` — `WebSocketTransport.open`
* `sockjs/tornado/transport/xhrstreaming.py` — `XhrStreamingTransport`
-/

namespace SockJS

/-- Session states from `session/base.py` (`NEW = 0`, `OPEN = 1`,
`CLOSING = 2`, `CLOSED = 3`). -/
inductive SessionState
  | NEW
  | OPEN
  | CLOSING
  | CLOSED
deriving DecidableEq

/-- Session-level exceptions from `session/exc.py` (plus Python's
built-in `AssertionError` and `RuntimeError`, which the session code
also raises). -/
inductive SessionExc
  | assertionError
  | transportAlreadySet
  | alreadyOpenedError
  | sessionClosed
  | sessionError (msg : String)
  | runtimeError (msg : String)
deriving DecidableEq

/-- A transport as a session sees it (the `ITransport` interface):
capability flags plus an identity (`tid` models Python object identity,
used by the `is` comparisons in `TransportMixin`).  `failing` abstracts
the underlying I/O: when true, `transport.send(frame)` raises `IOError`.
`closedRaises`: whether `transport.session_closed(session)` raises. -/
structure Transport where
  tid : Nat
  sendable : Bool
  recvable : Bool
  failing : Bool := false
  closedRaises : Bool := false
deriving DecidableEq

/-- The state of one `Session` object (fields of `StateMixin`,
`TransportMixin`, `ExpiryMixin`, `BaseSession` and the list-buffered
`Session` subclass).  `state` embeds the private `_state` attribute.
`conn` / `conn_info`: whether the session is bound to a connection
object / has connection info (the objects themselves are opaque
application data, only their presence matters to the session code). -/
structure Session where
  session_id : String
  state : SessionState := SessionState.NEW
  close_reason : Option (Int × String) := Option.none
  send_transport : Option Transport := Option.none
  recv_transport : Option Transport := Option.none
  expires_at : Int := 0
  ttl : Int
  conn : Bool := false
  conn_info : Bool := false
  send_buffer : List String := []
deriving DecidableEq

/-- Observable callback invocations (events dispatched out of the
session layer). -/
inductive Event
  | connSessionClosed (sid : String)
  | transportSessionClosed (tid : Nat)
deriving DecidableEq

namespace StateMixin

/-- `StateMixin.new` property: `self._state == NEW`. -/
def new (s : Session) : Bool :=
  s.state = SessionState.NEW

/-- `StateMixin.opened` property: `self._state == OPEN`. -/
def opened (s : Session) : Bool :=
  s.state = SessionState.OPEN

/-- `StateMixin.closing` property: `self._state == CLOSING`. -/
def closing (s : Session) : Bool :=
  s.state = SessionState.CLOSING

/-- `StateMixin.closed` property: `self._state in [CLOSING, CLOSED]`. -/
def closed (s : Session) : Bool :=
  s.state = SessionState.CLOSING ∨ s.state = SessionState.CLOSED

/-- `StateMixin.did_close`: unconditionally move to CLOSED. -/
def did_close (s : Session) : Session :=
  { s with state := SessionState.CLOSED }

end StateMixin

namespace ExpiryMixin

/-- Python `now or time_func()` — a supplied `now` of `None` or `0`
falls back to the clock. -/
def resolveTime (now : Option Int) (clock : Int) : Int :=
  match now with
  | Option.some t => if t = 0 then clock else t
  | Option.none => clock

/-- `ExpiryMixin.touch`: `self.expires_at = time_func() + self.ttl`. -/
def touch (s : Session) (clock : Int) : Session :=
  { s with expires_at := clock + s.ttl }

/-- Argument of `set_expiry`: `None`, a number, or a `datetime`
(carried as the epoch value `time.mktime(expires.timetuple())`
produces for it). -/
inductive Expires
  | noneE
  | num (q : Int)
  | dt (epoch : Int)
deriving DecidableEq

/-- `ExpiryMixin.set_expiry`.  `if not expires:` is Python falsiness:
true for `None` and for the number `0`; a `datetime` object is always
truthy.  A (converted) value below `1e9` is treated as a delta from the
current time, otherwise as an absolute timestamp. -/
def set_expiry (s : Session) (expires : Expires) (clock : Int) : Session :=
  match expires with
  | Expires.noneE => { s with expires_at := 0 }
  | Expires.num q =>
      if q = 0 then { s with expires_at := 0 }
      else if q < 10 ^ 9 then { s with expires_at := q + clock }
      else { s with expires_at := q }
  | Expires.dt epoch =>
      if epoch < 10 ^ 9 then { s with expires_at := epoch + clock }
      else { s with expires_at := epoch }

/-- `ExpiryMixin.has_expired`: `if not self.expires_at: return False;
return self.expires_at <= (now or time_func())`. -/
def has_expired (s : Session) (now : Option Int) (clock : Int) : Bool :=
  if s.expires_at = 0 then false
  else s.expires_at ≤ resolveTime now clock

end ExpiryMixin

namespace TransportMixin

/-- `TransportMixin.detach_transport`.  The Python `try`/`except` block
restores both slots on any raise, so an error leaves the session
unchanged — value semantics give that for free by discarding the
partially updated record.  `transport is not self.send_transport`
is object identity, embedded as `tid` comparison. -/
def detach_transport (s : Session) (t : Transport) :
    Except SessionExc Session :=
  if ¬(t.recvable || t.sendable) then
    Except.error SessionExc.assertionError
  else
    let step1 : Except SessionExc Session :=
      if t.sendable then
        match s.send_transport with
        | Option.some cur =>
            if cur.tid ≠ t.tid then
              Except.error SessionExc.transportAlreadySet
            else Except.ok { s with send_transport := Option.none }
        | Option.none => Except.ok { s with send_transport := Option.none }
      else Except.ok s
    match step1 with
    | Except.error e => Except.error e
    | Except.ok s1 =>
        if t.recvable then
          match s1.recv_transport with
          | Option.some cur =>
              if cur.tid ≠ t.tid then
                Except.error SessionExc.transportAlreadySet
              else Except.ok { s1 with recv_transport := Option.none }
          | Option.none =>
              Except.ok { s1 with recv_transport := Option.none }
        else Except.ok s1

end TransportMixin

namespace BaseSession

/-- `BaseSession.__init__(session_id, ttl)`: state NEW, no transports,
`ttl` stored and `set_expiry(ttl)` applied, unbound `conn`/`conn_info`,
empty list buffer (the `Session` subclass). -/
def create (session_id : String) (ttl : Int) (clock : Int) : Session :=
  ExpiryMixin.set_expiry
    { session_id := session_id, ttl := ttl }
    (ExpiryMixin.Expires.num ttl) clock

/-- `BaseSession.bind(conn)`: raise `SessionError` when already bound,
otherwise record the conn object and `touch()`. -/
def bind (s : Session) (clock : Int) : Except SessionExc Session :=
  if s.conn then
    Except.error
      (SessionExc.sessionError "Session is already bound to a conn object")
  else Except.ok (ExpiryMixin.touch { s with conn := true } clock)

/-- `BaseSession.has_expired`: closed sessions are always expired,
otherwise defer to `ExpiryMixin.has_expired`. -/
def has_expired (s : Session) (now : Option Int) (clock : Int) : Bool :=
  if StateMixin.closed s then true
  else ExpiryMixin.has_expired s now clock

/-- `BaseSession.on_close` (the part reachable from `close()`).
Returns the mutated session, the callback events, and whether an
exception escaped.  `conn.session_closed()` failures are caught and
logged inside `on_close` itself (`finally: self.conn = None`); a raise
from `send_transport.session_closed(self)` escapes before the slot is
cleared and before the recv slot is handled.  A transport's own
`session_closed` reaction (close frame, `did_close`, detach) lives in
the transport layer and is recorded here only as an event, so
session-state conclusions drawn from this model apply to sessions
without attached transports. -/
def on_close (s : Session) : Session × List Event × Bool :=
  let (s1, ev1) :=
    if s.conn then
      ({ s with conn := false }, [Event.connSessionClosed s.session_id])
    else (s, ([] : List Event))
  match s1.send_transport with
  | Option.some t =>
      if t.closedRaises then
        (s1, ev1 ++ [Event.transportSessionClosed t.tid], true)
      else
        let s2 := { s1 with send_transport := Option.none }
        let ev2 := ev1 ++ [Event.transportSessionClosed t.tid]
        match s2.recv_transport with
        | Option.some r =>
            if r.closedRaises then
              (s2, ev2 ++ [Event.transportSessionClosed r.tid], true)
            else
              ({ s2 with recv_transport := Option.none },
               ev2 ++ [Event.transportSessionClosed r.tid], false)
        | Option.none => (s2, ev2, false)
  | Option.none =>
      match s1.recv_transport with
      | Option.some r =>
          if r.closedRaises then
            (s1, ev1 ++ [Event.transportSessionClosed r.tid], true)
          else
            ({ s1 with recv_transport := Option.none },
             ev1 ++ [Event.transportSessionClosed r.tid], false)
      | Option.none => (s1, ev1, false)

/-- `StateMixin.close(code=3000, message='Go away!')` specialised to
`BaseSession` (whose `on_close` is the override that runs): a no-op on
an already CLOSING/CLOSED session, otherwise move to CLOSING, record
the close reason, and run `on_close`.  The third component reports
whether `close()` itself raised. -/
def close (s : Session) (code : Int := 3000)
    (message : String := "Go away!") : Session × List Event × Bool :=
  if StateMixin.closed s then (s, [], false)
  else
    on_close
      { s with
        state := SessionState.CLOSING,
        close_reason := Option.some (code, message) }

/-- `Session.append_to_buffer` (list implementation from
`session/__init__.py`). -/
def append_to_buffer (s : Session) (data : String) : Session :=
  { s with send_buffer := s.send_buffer ++ [data] }

/-- `Session.clear_buffer`. -/
def clear_buffer (s : Session) : Session :=
  { s with send_buffer := [] }

/-- `BaseSession.write(frame)`: `False` when no send transport is
attached or when `transport.send(frame)` raises `IOError`; on success
`touch()` and return `True`.  Also returns the frames actually handed
to the transport (the wire). -/
def write (s : Session) (frame : String) (clock : Int) :
    Session × Bool × List String :=
  match s.send_transport with
  | Option.none => (s, false, [])
  | Option.some t =>
      if t.failing then (s, false, [])
      else (ExpiryMixin.touch s clock, true, [frame])

/-- `BaseSession.send_frame(data, multi=True)`: frame `'a[' + data +
']'` (or `'m' + data`); a failed `write` appends `data` to the
buffer. -/
def send_frame (s : Session) (data : String) (multi : Bool)
    (clock : Int) : Session × List String :=
  let frame := if multi then "a[" ++ data ++ "]" else "m" ++ data
  let (s1, ok, out) := write s frame clock
  if ok then (s1, out) else (append_to_buffer s1 data, out)

/-- `BaseSession.send_multi(messages, raw=False)`: raw messages are
joined with commas (already-encoded JSON strings), otherwise the list
is JSON-encoded with `proto.encode` (abstracted as `enc`). -/
def send_multi (s : Session) (messages : List String) (raw : Bool)
    (enc : List String → String) (clock : Int) : Session × List String :=
  let data := if raw then String.intercalate "," messages
              else enc messages
  send_frame s data true clock

/-- `BaseSession.send(message, raw=False)`: JSON-encode unless raw
(`proto.encode` abstracted as `enc`), then `send_frame(message)` —
note `multi` keeps its default `True`. -/
def send (s : Session) (message : String) (raw : Bool)
    (enc : String → String) (clock : Int) : Session × List String :=
  let message := if ¬raw then enc message else message
  send_frame s message true clock

/-- `BaseSession.flush()`: nothing without a send transport or with an
empty buffer; otherwise `send_multi(buffer, raw=True)` then
`clear_buffer()` (unconditionally). -/
def flush (s : Session) (enc : List String → String) (clock : Int) :
    Session × List String :=
  match s.send_transport with
  | Option.none => (s, [])
  | Option.some _ =>
      let send_buffer := s.send_buffer
      if send_buffer = [] then (s, [])
      else
        let (s1, out) := send_multi s send_buffer true enc clock
        (clear_buffer s1, out)

end BaseSession

/-! ## Python dicts as association lists

`getA` / `setA` / `delA` embed `d[k]` lookup, `d[k] = v` assignment and
`d.pop(k, None)`.  Keys are unique in every reachable dict, so the
filter-based delete has exactly `dict.pop` semantics. -/

/-- Dict lookup (`d.get(k)` / `d[k]`): first binding of the key. -/
def getA {α : Type} : List (String × α) → String → Option α
  | [], _ => Option.none
  | p :: l, k => if p.1 = k then Option.some p.2 else getA l k

/-- Dict delete (`d.pop(k, None)`, dropping the returned value). -/
def delA {α : Type} (l : List (String × α)) (k : String) :
    List (String × α) :=
  l.filter (fun p => p.1 != k)

/-- Dict assignment (`d[k] = v`): replace in place when present,
append otherwise. -/
def setA {α : Type} (l : List (String × α)) (k : String) (v : α) :
    List (String × α) :=
  if (getA l k).isSome then
    l.map (fun p => if p.1 = k then (p.1, v) else p)
  else l ++ [(k, v)]

/-- Lookup after delete: the deleted key is gone, others unchanged. -/
theorem getA_delA {α : Type} (l : List (String × α)) (k k' : String) :
    getA (delA l k) k' = if k' = k then Option.none else getA l k' := by
  induction l with
  | nil => simp [getA, delA]
  | cons p l ih =>
      by_cases hpk : p.1 = k
      · have h1 : delA (p :: l) k = delA l k := by
          simp [delA, List.filter_cons, hpk]
        rw [h1, ih]
        by_cases hk : k' = k
        · simp [hk]
        · have hpk' : p.1 ≠ k' := by
            rw [hpk]; exact fun h => hk h.symm
          simp [hk, getA, hpk']
      · have h1 : delA (p :: l) k = p :: delA l k := by
          simp [delA, List.filter_cons, hpk]
        rw [h1]
        by_cases hpk' : p.1 = k'
        · have hk : k' ≠ k := fun hh => hpk (hpk'.trans hh)
          simp [getA, hpk', hk]
        · by_cases hk : k' = k
          · subst hk
            simp [getA, hpk, hpk', ih]
          · simp [getA, hpk, hpk', hk, ih]

/-- Lookup after an in-place value replacement (keys untouched). -/
theorem getA_map_replace {α : Type} (l : List (String × α)) (k : String)
    (v : α) (k' : String) :
    getA (l.map (fun p => if p.1 = k then (p.1, v) else p)) k' =
      (getA l k').map (fun w => if k' = k then v else w) := by
  induction l with
  | nil => rfl
  | cons p l ih =>
      by_cases hpk : p.1 = k <;> by_cases hpk' : p.1 = k' <;>
        simp_all [getA]

/-- Lookup in `l ++ [(k, v)]` when `k` is absent from `l`. -/
theorem getA_append_absent {α : Type} (l : List (String × α)) (k : String)
    (v : α) (k' : String) (h : getA l k = Option.none) :
    getA (l ++ [(k, v)]) k' =
      if k' = k then Option.some v else getA l k' := by
  induction l with
  | nil =>
      by_cases hk : k' = k
      · subst hk; simp [getA]
      · simp [getA, hk, Ne.symm hk]
  | cons p l ih =>
      have hpk : p.1 ≠ k := by
        intro hh
        simp [getA, hh] at h
      have hl : getA l k = Option.none := by
        simpa [getA, hpk] using h
      by_cases hpk' : p.1 = k'
      · have hk : k' ≠ k := fun hh => hpk (hpk'.trans hh)
        simp [getA, hpk', hk]
      · simp [getA, hpk', ih hl]

/-- Lookup after dict assignment: the assigned key maps to the new
value, others are unchanged. -/
theorem getA_setA {α : Type} (l : List (String × α)) (k : String) (v : α)
    (k' : String) :
    getA (setA l k v) k' =
      if k' = k then Option.some v else getA l k' := by
  unfold setA
  by_cases hp : (getA l k).isSome
  · rw [if_pos hp, getA_map_replace]
    by_cases hk : k' = k
    · subst hk
      obtain ⟨w, hw⟩ := Option.isSome_iff_exists.mp hp
      simp [hw]
    · simp only [if_neg hk]
      cases getA l k' <;> rfl
  · rw [if_neg hp]
    exact getA_append_absent l k v k'
      (Option.not_isSome_iff_eq_none.mp hp)

/-- The SockJS session pool (`session/pool.py`).  The heap `pool` is a
min-heap ordered by GC-cycle stamp, embedded as a list kept sorted by
its first component; entries hold the session objects themselves (as in
the Python heap).  `cycles` is keyed by the session object; since every
registered session has a unique `session_id`, the id stands in for the
object identity here. -/
structure SessionPool where
  stopping : Bool := false
  sessions : List (String × Session) := []
  cycles : List (String × Int) := []
  pool : List (Int × Session) := []
deriving DecidableEq

namespace SessionPool

/-- `heapq.heappush` on the stamp-ordered pool. -/
def heappush (pool : List (Int × Session)) (e : Int × Session) :
    List (Int × Session) :=
  List.orderedInsert (fun a b : Int × Session => a.1 ≤ b.1) e pool

/-- `SessionPool.add(session)`: refuse while stopping, refuse duplicate
ids, refuse non-NEW sessions; otherwise stamp `cycles`, register, and
push `(now, session)` onto the heap. -/
def add (p : SessionPool) (sess : Session) (clock : Int) :
    Except SessionExc SessionPool :=
  if p.stopping then
    Except.error (SessionExc.runtimeError "SessionPool is stopping")
  else if (getA p.sessions sess.session_id).isSome then
    Except.error (SessionExc.runtimeError "Adding already existing session")
  else if ¬StateMixin.new sess then
    Except.error (SessionExc.runtimeError "Session has already expired")
  else
    Except.ok
      { p with
        cycles := setA p.cycles sess.session_id clock,
        sessions := setA p.sessions sess.session_id sess,
        pool := heappush p.pool (clock, sess) }

/-- `SessionPool.remove(session_id)`: pop the registry (absent →
`False`); pop `cycles`; when the popped stamp is truthy, erase the
`(stamp, session)` heap entry (`ValueError` → pass); `close()` the
session, logging and swallowing any exception; return `True`.  Also
returns the closed session object (the Python code mutates it in
place) and the callback events `close()` produced. -/
def remove (p : SessionPool) (sid : String) :
    SessionPool × Bool × Option Session × List Event :=
  match getA p.sessions sid with
  | Option.none => (p, false, Option.none, [])
  | Option.some sess =>
      let p1 : SessionPool := { p with sessions := delA p.sessions sid }
      let ct := getA p1.cycles sid
      let p2 : SessionPool := { p1 with cycles := delA p1.cycles sid }
      let p3 : SessionPool :=
        match ct with
        | Option.some c =>
            if c ≠ 0 then { p2 with pool := p2.pool.erase (c, sess) }
            else p2
        | Option.none => p2
      let closeRes := BaseSession.close sess
      (p3, true, Option.some closeRes.1, closeRes.2.1)

/-- The body of `SessionPool.gc`'s `while` loop, with explicit fuel;
`Option.none` means the fuel ran out (never happens: see the C4
theorem).  Each iteration peeks the heap top, reads
`self.cycles[session]` (a missing key is a `KeyError`, which ends the
pass — modelled as a clean stop), breaks once the top's cycle stamp
reaches `now`, and otherwise pops: an expired session is removed, a
survivor is restamped with `now` and pushed back.  The returned list is
the order in which sessions were visited (popped). -/
def gcLoop (now : Int) :
    Nat → SessionPool → List String → Option (SessionPool × List String)
  | 0, _p, _v => Option.none
  | Nat.succ fuel, p, v =>
      match p.pool with
      | [] => Option.some (p, v)
      | (_stamp, sess) :: rest =>
          match getA p.cycles sess.session_id with
          | Option.none => Option.some (p, v)
          | Option.some cycle =>
              if now ≤ cycle then Option.some (p, v)
              else
                let p1 : SessionPool := { p with pool := rest }
                if BaseSession.has_expired sess (Option.some now) now then
                  gcLoop now fuel (remove p1 sess.session_id).1
                    (v ++ [sess.session_id])
                else
                  gcLoop now fuel
                    { p1 with
                      cycles := setA p1.cycles sess.session_id now,
                      pool := heappush p1.pool (now, sess) }
                    (v ++ [sess.session_id])

/-- `SessionPool.gc(time_func)`: return immediately on an empty pool,
otherwise run the loop.  `pool.length + 1` fuel always suffices (the C4
theorem proves the result is never `Option.none`). -/
def gc (p : SessionPool) (now : Int) : Option (SessionPool × List String) :=
  if p.pool = [] then Option.some (p, [])
  else gcLoop now (p.pool.length + 1) p []

end SessionPool

/-- An `Endpoint` (`server.py`), restricted to the state the session
claims touch: the active-session registry, the session pool, and the
settings that feed session creation. -/
structure Endpoint where
  active_sessions : List (String × Session) := []
  heartbeat_delay : Int := 25
  heartbeat_timeout : Int := 5
  session_pool : SessionPool := {}
deriving DecidableEq

namespace Endpoint

/-- `Endpoint.create_session(session_id, register=True)`: build a
session with `ttl = heartbeat_delay + heartbeat_timeout`, bind a fresh
connection object (which `touch()`es), and — when `register` — add it
to the session pool. -/
def create_session (e : Endpoint) (session_id : String)
    (register : Bool) (clock : Int) :
    Except SessionExc (Endpoint × Session) :=
  let session_ttl := e.heartbeat_delay + e.heartbeat_timeout
  let sess := BaseSession.create session_id session_ttl clock
  match BaseSession.bind sess clock with
  | Except.error err => Except.error err
  | Except.ok sess =>
      if register then
        match SessionPool.add e.session_pool sess clock with
        | Except.error err => Except.error err
        | Except.ok p => Except.ok ({ e with session_pool := p }, sess)
      else Except.ok (e, sess)

/-- `Endpoint.broadcast(message, raw=False, exclude=None)`: iterate the
active sessions, skip the excluded ids, and call `sess.send(message)` —
with `send`'s own default `raw=False` and ignoring the `raw` argument
`broadcast` received.  Returns the updated endpoint and all frames
handed to transports. -/
def broadcast (e : Endpoint) (message : String) (_raw : Bool)
    (exclude : List String) (enc : String → String) (clock : Int) :
    Endpoint × List String :=
  let results := e.active_sessions.map (fun p =>
    if exclude ≠ [] ∧ p.2.session_id ∈ exclude then (p, ([] : List String))
    else
      let (s1, out) := BaseSession.send p.2 message false enc clock
      ((p.1, s1), out))
  ({ e with active_sessions := results.map (fun r => r.1) },
   (results.map (fun r => r.2)).flatten)

end Endpoint

namespace BaseTransport

/-- `BaseTransport.create_session(session_id)` from
`transport/base.py`: `return self.endpoint.create_session(session_id)`
— the `register` keyword is left at its default `True`. -/
def create_session (e : Endpoint) (session_id : String) (clock : Int) :
    Except SessionExc (Endpoint × Session) :=
  Endpoint.create_session e session_id true clock

end BaseTransport

namespace WebSocketTransport

/-- The session-acquisition part of `WebSocketTransport.open` from
`transport/websocket.py`: after the stats hook and the Nagle toggle
(neither touches session state), `session = self.create_session(
session_id)` then `session.conn_info = self.get_conn_info()`.  The
subsequent `bind_session(session)` never touches the pool registry. -/
def wsOpen (e : Endpoint) (session_id : String) (clock : Int) :
    Except SessionExc (Endpoint × Session) :=
  match BaseTransport.create_session e session_id clock with
  | Except.error err => Except.error err
  | Except.ok (e1, sess) =>
      Except.ok (e1, { sess with conn_info := true })

end WebSocketTransport

/-! ## Streaming transports (`transport/base.py`, `xhrstreaming.py`) -/

/-- The response-side state of one streaming request:
`amount_limit` is the remaining byte budget (`response_limit` at
`prepare`), `out` the chunks written to the wire, `finished` whether
the response was finished. -/
structure StreamingReq where
  amount_limit : Int
  out : List String := []
  finished : Bool := false
deriving DecidableEq

namespace StreamingTransport

/-- `StreamingTransport.should_finish`: `self.amount_limit <= 0`. -/
def should_finish (r : StreamingReq) : Bool :=
  r.amount_limit ≤ 0

/-- `StreamingTransport.send_raw(data)`: write the data, subtract its
length from the budget, and finish once the budget is exhausted. -/
def send_raw (r : StreamingReq) (data : String) : StreamingReq :=
  let r1 := { r with out := r.out ++ [data] }
  let r2 := { r1 with amount_limit := r1.amount_limit - data.length }
  if ¬should_finish r2 then r2
  else { r2 with finished := true }

end StreamingTransport

namespace XhrStreamingTransport

/-- `XhrStreamingTransport.encode_frame(frame)`: `frame + '\n'`. -/
def encode_frame (frame : String) : String :=
  frame ++ "\n"

/-- The prelude `'h' * 2048 + '\n'` (2049 bytes). -/
def prelude : String :=
  String.mk (List.replicate 2048 'h' ++ ['\n'])

/-- The prelude part of `XhrStreamingTransport.post`: `self.write(
'h' * 2048 + '\n'); self.flush()` — plain `RequestHandler` writes that
bypass `send_raw` and therefore leave `amount_limit` untouched. -/
def post (response_limit : Int) : StreamingReq :=
  { amount_limit := response_limit, out := [prelude] }

/-- `BaseTransport.send(data)` on this transport: encode then
`send_raw`. -/
def send (r : StreamingReq) (frame : String) : StreamingReq :=
  StreamingTransport.send_raw r (encode_frame frame)

/-- A stream of frames sent over one request; the transport stops once
the response is finished (`finish()` detaches the session). -/
def sendFrames (r : StreamingReq) : List String → StreamingReq
  | [] => r
  | f :: fs => if r.finished then r else sendFrames (send r f) fs

end XhrStreamingTransport

/-! ## Helper lemmas -/

/-- `on_close` never changes the `_state` field (it only clears
`conn` and the transport slots). -/
theorem on_close_fst_state (s : Session) :
    (BaseSession.on_close s).1.state = s.state := by
  unfold BaseSession.on_close
  by_cases hc : s.conn <;>
    simp only [hc, if_true, if_false] <;>
    cases hst : s.send_transport <;>
      cases hrt : s.recv_transport <;>
        simp_all <;>
          split <;> simp_all <;>
            (try (split <;> simp_all))

/-- `close` always leaves the session in a CLOSING/CLOSED state. -/
theorem close_fst_closed (s : Session) (code : Int) (msg : String) :
    StateMixin.closed (BaseSession.close s code msg).1 = true := by
  unfold BaseSession.close
  split
  · rename_i h
    simpa using h
  · have h := on_close_fst_state
      { s with
        state := SessionState.CLOSING,
        close_reason := Option.some (code, msg) }
    unfold StateMixin.closed
    rw [h]
    simp

/-! ## Claim C3 -/

/-- **C3** (confirmed).  With a send transport attached (and its write
succeeding) and a non-empty buffer of already-encoded payloads,
`flush()` emits exactly the single frame
`'a[' + s1 + ',' + … + ',' + sn + ']'` — the raw strings joined with
commas, not re-encoded — and clears the buffer; with an empty buffer or
no send transport it emits nothing and changes nothing. -/
theorem C3_flush_emits_single_array_frame (s : Session)
    (enc : List String → String) (clock : Int) :
    (∀ t, s.send_transport = Option.some t → t.failing = false →
        s.send_buffer ≠ [] →
        BaseSession.flush s enc clock =
          ({ ExpiryMixin.touch s clock with send_buffer := [] },
           ["a[" ++ String.intercalate "," s.send_buffer ++ "]"])) ∧
    (s.send_buffer = [] → BaseSession.flush s enc clock = (s, [])) ∧
    (s.send_transport = Option.none →
        BaseSession.flush s enc clock = (s, [])) := by
  refine ⟨?_, ?_, ?_⟩
  · intro t hst hfail hbuf
    unfold BaseSession.flush BaseSession.send_multi BaseSession.send_frame
      BaseSession.write BaseSession.clear_buffer
    simp [hst, hfail, hbuf, ExpiryMixin.touch]
  · intro hbuf
    unfold BaseSession.flush
    cases hst : s.send_transport <;> simp [hbuf]
  · intro hst
    unfold BaseSession.flush
    simp [hst]

/-- A working (never-failing) sendable transport for witnesses. -/
def okTransport : Transport :=
  { tid := 3, sendable := true, recvable := false }

/-- Concrete session for the C3 witness: two buffered encoded
payloads, a working send transport. -/
def sessC3 : Session :=
  { session_id := "c3", state := SessionState.OPEN, ttl := 30,
    expires_at := 40, send_transport := Option.some okTransport,
    send_buffer := ["\"a\"", "\"b\""] }

/-- Witness for C3: flushing two buffered payloads emits the single
frame `a["a","b"]` and empties the buffer. -/
theorem C3_flush_witness :
    BaseSession.flush sessC3 (String.intercalate ",") 100 =
      ({ ExpiryMixin.touch sessC3 100 with send_buffer := [] },
       ["a[\"a\",\"b\"]"]) :=
  (C3_flush_emits_single_array_frame sessC3 (String.intercalate ",") 100).1
    okTransport rfl rfl (by decide)

/-! ## Claim C2 -/

/-- A sendable transport whose `send` raises `IOError`. -/
def failingTransport : Transport :=
  { tid := 7, sendable := true, recvable := false, failing := true }

/-- Session with one buffered encoded message and a failing send
transport, for the C2 failing input. -/
def sessC2 : Session :=
  { session_id := "c2", state := SessionState.OPEN, ttl := 30,
    expires_at := 50, send_transport := Option.some failingTransport,
    send_buffer := ["\"m1\""] }

/-- **C2** (code bug).  A flush whose underlying write fails discards
the buffered payload: `send_frame` re-appends the joined payload to
the buffer, but `flush` then calls `clear_buffer()` unconditionally,
so nothing reaches the wire and the buffer ends empty — the message
is lost, violating the claimed exactly-once delivery. -/
theorem C2_flush_failed_write_discards_buffer :
    sessC2.send_buffer = ["\"m1\""] ∧
    BaseSession.flush sessC2 (String.intercalate ",") 100 =
      ({ sessC2 with send_buffer := [] }, []) :=
  ⟨rfl, rfl⟩

/-! ## Claim C1 -/

/-- **C1** (code bug).  `WebSocketTransport.open` calls
`BaseTransport.create_session`, which invokes
`endpoint.create_session(session_id)` with `register` left at its
default `True` — so the WebSocket session IS added to the session pool
(registered in `sessions`, stamped in `cycles`, pushed on the heap),
contradicting the claimed `register=False`. -/
theorem C1_websocket_open_registers_session :
    (WebSocketTransport.wsOpen {} "s1" 100).map
        (fun r => ((getA r.1.session_pool.sessions "s1").isSome,
                   getA r.1.session_pool.cycles "s1",
                   r.1.session_pool.pool.length)) =
      Except.ok (true, Option.some 100, 1) := by
  rfl

/-! ## Claim C5 -/

/-- Open session already past its expiry, for the C5 counterexample. -/
def sessC5 : Session :=
  { session_id := "c5", state := SessionState.OPEN, ttl := 30,
    expires_at := 10, conn := true }

/-- **C5 counterexample.**  `has_expired` is not monotone along
arbitrary operation sequences: at time 10 the session has expired, but
a `touch()` at time 10 refreshes `expires_at` to 40, so at the later
time 11 `has_expired` is false again. -/
theorem C5_touch_breaks_monotonicity :
    BaseSession.has_expired sessC5 (Option.some 10) 10 = true ∧
    BaseSession.has_expired (ExpiryMixin.touch sessC5 10)
        (Option.some 11) 11 = false :=
  ⟨rfl, rfl⟩

/-- **C5** (corrected).  `has_expired()` is monotone in time as long as
no expiry-resetting operation (`touch`, `set_expiry`, or anything that
calls them) intervenes; and `close()` forces it to true permanently. -/
theorem C5_has_expired_monotone_amended :
    (∀ (s : Session) (t u c d : Int), t ≠ 0 → u ≠ 0 → t ≤ u →
        BaseSession.has_expired s (Option.some t) c = true →
        BaseSession.has_expired s (Option.some u) d = true) ∧
    (∀ (s : Session) (u d : Int) (code : Int) (msg : String),
        BaseSession.has_expired (BaseSession.close s code msg).1
          (Option.some u) d = true) := by
  constructor
  · intro s t u c d ht hu htu h
    unfold BaseSession.has_expired at h ⊢
    split at h
    · simp_all
    · rename_i hcl
      simp only [hcl]
      unfold ExpiryMixin.has_expired ExpiryMixin.resolveTime at h ⊢
      split at h
      · simp_all
      · simp only [ht, if_false, decide_eq_true_eq] at h
        simp only [hu, if_false]
        simp_all
        exact le_trans h htu
  · intro s u d code msg
    unfold BaseSession.has_expired
    simp [close_fst_closed]

/-- Witness for the amended C5: a concrete expired session stays
expired at a later time, and a closed session reports expired. -/
theorem C5_monotone_witness :
    BaseSession.has_expired sessC5 (Option.some 11) 11 = true ∧
    BaseSession.has_expired
        (BaseSession.close sessC5 3000 "Go away!").1
        (Option.some 11) 11 = true :=
  ⟨C5_has_expired_monotone_amended.1 sessC5 10 11 10 11
      (by decide) (by decide) (by decide) (by decide),
   C5_has_expired_monotone_amended.2 sessC5 11 11 3000 "Go away!"⟩

/-! ## Claim C6 -/

/-- A slot is compatible with detaching `t`: empty, or holding `t`
itself. -/
def slotMatches (slot : Option Transport) (t : Transport) : Prop :=
  ∀ u, slot = Option.some u → u.tid = t.tid

/-- Capability-less transport for the C6 edge case. -/
def sessC6 : Session :=
  { session_id := "c6", ttl := 5 }

/-- Sendable transport for the C6 counterexample. -/
def tC6 : Transport :=
  { tid := 1, sendable := true, recvable := false }

/-- **C6 counterexample.**  Detaching a sendable transport from a
session whose send slot is EMPTY does not fail at all: it succeeds and
leaves the session unchanged, refuting "fails … including when the
slot is empty". -/
theorem C6_detach_empty_slot_no_failure :
    TransportMixin.detach_transport sessC6 tC6 = Except.ok sessC6 :=
  rfl

/-- **C6** (corrected).  `detach_transport(t)` clears the slots
matching `t`'s capabilities; a matching slot holding a *different*
transport raises `TransportAlreadySet` (and the restore logic leaves
the session unchanged); an *empty* matching slot is silently cleared
(no failure); only a transport with no capabilities at all raises
`AssertionError`. -/
theorem C6_detach_transport_cases (s : Session) (t : Transport) :
    (t.sendable = false → t.recvable = false →
        TransportMixin.detach_transport s t =
          Except.error SessionExc.assertionError) ∧
    (∀ u, t.sendable = true → s.send_transport = Option.some u →
        u.tid ≠ t.tid →
        TransportMixin.detach_transport s t =
          Except.error SessionExc.transportAlreadySet) ∧
    (∀ u, t.recvable = true →
        (t.sendable = true → slotMatches s.send_transport t) →
        s.recv_transport = Option.some u → u.tid ≠ t.tid →
        TransportMixin.detach_transport s t =
          Except.error SessionExc.transportAlreadySet) ∧
    ((t.sendable = true ∨ t.recvable = true) →
        (t.sendable = true → slotMatches s.send_transport t) →
        (t.recvable = true → slotMatches s.recv_transport t) →
        TransportMixin.detach_transport s t =
          Except.ok
            { s with
              send_transport :=
                if t.sendable then Option.none else s.send_transport,
              recv_transport :=
                if t.recvable then Option.none else s.recv_transport }) := by
  refine ⟨?_, ?_, ?_, ?_⟩
  · intro hs hr
    unfold TransportMixin.detach_transport
    simp [hs, hr]
  · intro u hs hslot hne
    unfold TransportMixin.detach_transport
    simp [hs, hslot, hne]
  · intro u hr hsend hslot hne
    unfold TransportMixin.detach_transport
    cases hsd : t.sendable with
    | false =>
        simp only [hsd, hr]
        simp [hslot, hne]
    | true =>
        have hm := hsend hsd
        cases hst : s.send_transport with
        | none => simp [hsd, hr, hst, hslot, hne]
        | some cur =>
            have : cur.tid = t.tid := hm cur hst
            simp [hsd, hr, hst, this, hslot, hne]
  · intro hcap hsend hrecv
    have hor : (t.recvable || t.sendable) = true := by
      rcases hcap with h | h <;> simp [h]
    unfold TransportMixin.detach_transport
    cases hsd : t.sendable with
    | false =>
        cases hr : t.recvable with
        | false => simp_all
        | true =>
            have hm := hrecv hr
            cases hrt : s.recv_transport with
            | none => simp [hor, hsd, hr, hrt]
            | some cur =>
                have : cur.tid = t.tid := hm cur hrt
                simp [hor, hsd, hr, hrt, this]
    | true =>
        have hm := hsend hsd
        cases hst : s.send_transport with
        | none =>
            cases hr : t.recvable with
            | false => simp [hor, hsd, hr, hst]
            | true =>
                have hm2 := hrecv hr
                cases hrt : s.recv_transport with
                | none => simp [hor, hsd, hr, hst, hrt]
                | some cur =>
                    have : cur.tid = t.tid := hm2 cur hrt
                    simp [hor, hsd, hr, hst, hrt, this]
        | some cur =>
            have hcur : cur.tid = t.tid := hm cur hst
            cases hr : t.recvable with
            | false => simp [hor, hsd, hr, hst, hcur]
            | true =>
                have hm2 := hrecv hr
                cases hrt : s.recv_transport with
                | none => simp [hor, hsd, hr, hst, hcur, hrt]
                | some cur2 =>
                    have : cur2.tid = t.tid := hm2 cur2 hrt
                    simp [hor, hsd, hr, hst, hcur, hrt, this]

/-- Session holding `tC6` in its send slot, for the C6 witness. -/
def sessC6full : Session :=
  { session_id := "c6f", ttl := 5, send_transport := Option.some tC6 }

/-- Witness for the corrected C6: detaching the transport actually
held clears the slot; detaching a different sendable transport fails
with `TransportAlreadySet`. -/
theorem C6_detach_witness :
    TransportMixin.detach_transport sessC6full tC6 =
      Except.ok { sessC6full with send_transport := Option.none } ∧
    TransportMixin.detach_transport sessC6full
        { tid := 2, sendable := true, recvable := false } =
      Except.error SessionExc.transportAlreadySet :=
  ⟨(C6_detach_transport_cases sessC6full tC6).2.2.2
      (Or.inl rfl)
      (fun _ u h => by
        simp only [sessC6full] at h
        cases h
        rfl)
      (fun h => by cases h),
   (C6_detach_transport_cases sessC6full
        { tid := 2, sendable := true, recvable := false }).2.1
      tC6 rfl rfl (by decide)⟩

/-! ## Claim C8 -/

/-- Session for the C8 counterexample. -/
def sessC8 : Session :=
  { session_id := "c8", ttl := 5 }

/-- **C8 counterexample.**  A `datetime` argument is converted to its
epoch value and then put through the same `< 1e9` magnitude test: a
datetime whose epoch value is 5 is treated as a *delta*, giving
`expires_at = time() + 5 = 105`, not the absolute time 5 the claim
asserts for datetimes. -/
theorem C8_datetime_small_epoch_is_delta :
    (ExpiryMixin.set_expiry sessC8 (ExpiryMixin.Expires.dt 5) 100).expires_at
        = 105 ∧
    ¬((ExpiryMixin.set_expiry sessC8
        (ExpiryMixin.Expires.dt 5) 100).expires_at = 5) :=
  ⟨rfl, by decide⟩

/-- **C8** (corrected).  `set_expiry(e)` classifies by magnitude after
datetime conversion: falsy (`None`/`0`) → never expires; a numeric or
datetime-converted value `< 1e9` is a relative delta added to the
current time; a value `≥ 1e9` is an absolute timestamp. -/
theorem C8_set_expiry_classification (s : Session) (clock : Int) :
    ((ExpiryMixin.set_expiry s ExpiryMixin.Expires.noneE clock).expires_at
        = 0) ∧
    ((ExpiryMixin.set_expiry s (ExpiryMixin.Expires.num 0) clock).expires_at
        = 0) ∧
    (∀ q : Int, q ≠ 0 → q < 10 ^ 9 →
        (ExpiryMixin.set_expiry s (ExpiryMixin.Expires.num q)
            clock).expires_at = q + clock) ∧
    (∀ q : Int, 10 ^ 9 ≤ q →
        (ExpiryMixin.set_expiry s (ExpiryMixin.Expires.num q)
            clock).expires_at = q) ∧
    (∀ e : Int, e < 10 ^ 9 →
        (ExpiryMixin.set_expiry s (ExpiryMixin.Expires.dt e)
            clock).expires_at = e + clock) ∧
    (∀ e : Int, 10 ^ 9 ≤ e →
        (ExpiryMixin.set_expiry s (ExpiryMixin.Expires.dt e)
            clock).expires_at = e) := by
  refine ⟨rfl, rfl, ?_, ?_, ?_, ?_⟩
  · intro q hq hlt
    norm_num only at hlt
    unfold ExpiryMixin.set_expiry
    simp [hq, hlt]
  · intro q hge
    norm_num only at hge
    have hq : q ≠ 0 := by omega
    have hnlt : ¬(q < 1000000000) := by omega
    unfold ExpiryMixin.set_expiry
    simp only [hq, if_false]
    norm_num [hnlt]
  · intro e hlt
    norm_num only at hlt
    unfold ExpiryMixin.set_expiry
    simp [hlt]
  · intro e hge
    norm_num only at hge
    have hnlt : ¬(e < 1000000000) := by omega
    unfold ExpiryMixin.set_expiry
    norm_num [hnlt]

/-- Witness for the corrected C8: concrete instances of all the
classification branches. -/
theorem C8_set_expiry_witness :
    (ExpiryMixin.set_expiry sessC8 (ExpiryMixin.Expires.num 30)
        100).expires_at = 130 ∧
    (ExpiryMixin.set_expiry sessC8 (ExpiryMixin.Expires.num 2000000000)
        100).expires_at = 2000000000 ∧
    (ExpiryMixin.set_expiry sessC8 (ExpiryMixin.Expires.dt 2000000000)
        100).expires_at = 2000000000 :=
  ⟨(C8_set_expiry_classification sessC8 100).2.2.1 30
      (by decide) (by decide),
   (C8_set_expiry_classification sessC8 100).2.2.2.1 2000000000
      (by decide),
   (C8_set_expiry_classification sessC8 100).2.2.2.2.2 2000000000
      (by decide)⟩

/-! ## Claim C7 -/

/-- `sendFrames` is inert on a finished response. -/
theorem sendFrames_finished (r : StreamingReq) (fs : List String)
    (h : r.finished = true) :
    XhrStreamingTransport.sendFrames r fs = r := by
  cases fs with
  | nil => rfl
  | cons f fs => unfold XhrStreamingTransport.sendFrames; simp [h]

/-- Generalised byte-budget invariant for streaming sends: starting
from an unfinished response with a positive remaining budget, the
stream is finished at the end iff the encoded frames add up to at
least the budget. -/
theorem sendFrames_finished_iff (fs : List String) :
    ∀ r : StreamingReq, r.finished = false → 0 < r.amount_limit →
      ((XhrStreamingTransport.sendFrames r fs).finished = true ↔
        r.amount_limit ≤
          (fs.map
            (fun f =>
              ((XhrStreamingTransport.encode_frame f).length : Int))).sum) := by
  induction fs with
  | nil =>
      intro r hf hpos
      simp [XhrStreamingTransport.sendFrames, hf]
      omega
  | cons f fs ih =>
      intro r hf hpos
      unfold XhrStreamingTransport.sendFrames
      rw [hf]
      simp only [Bool.false_eq_true, if_false, List.map_cons, List.sum_cons]
      set L : Int := ((XhrStreamingTransport.encode_frame f).length : Int)
        with hL
      have hL0 : 0 < L := by
        have hn : ("\n" : String).length = 1 := rfl
        have h1 : (XhrStreamingTransport.encode_frame f).length =
            f.length + 1 := by
          unfold XhrStreamingTransport.encode_frame
          rw [String.length_append, hn]
        omega
      by_cases hfin : r.amount_limit - L ≤ 0
      · have hsend :
            XhrStreamingTransport.send r f =
              { amount_limit := r.amount_limit - L,
                out := r.out ++ [XhrStreamingTransport.encode_frame f],
                finished := true } := by
          unfold XhrStreamingTransport.send StreamingTransport.send_raw
            StreamingTransport.should_finish
          simp [hfin, ← hL]
        rw [hsend, sendFrames_finished _ _ rfl]
        simp only [true_iff]
        have hsum : 0 ≤ (fs.map
            (fun f =>
              ((XhrStreamingTransport.encode_frame f).length : Int))).sum :=
          List.sum_nonneg (by
            intro x hx
            simp only [List.mem_map] at hx
            obtain ⟨a, _, rfl⟩ := hx
            positivity)
        omega
      · have hsend :
            XhrStreamingTransport.send r f =
              { amount_limit := r.amount_limit - L,
                out := r.out ++ [XhrStreamingTransport.encode_frame f],
                finished := false } := by
          unfold XhrStreamingTransport.send StreamingTransport.send_raw
            StreamingTransport.should_finish
          simp [hfin, hf, ← hL]
        rw [hsend]
        rw [ih { amount_limit := r.amount_limit - L,
                 out := r.out ++ [XhrStreamingTransport.encode_frame f],
                 finished := false } rfl (by dsimp only; omega)]
        dsimp only
        omega

/-- **C7** (corrected).  The prelude `'h'*2048+'\n'` is written with a
plain `RequestHandler.write`, bypassing `send_raw`, so it does NOT
count against `response_limit`: the response finishes exactly when the
encoded frames alone total at least `R` bytes. -/
theorem C7_streaming_budget_excludes_prelude (R : Int) (frames : List String)
    (hR : 0 < R) :
    (XhrStreamingTransport.post R).out = [XhrStreamingTransport.prelude] ∧
    ((XhrStreamingTransport.sendFrames (XhrStreamingTransport.post R)
        frames).finished = true ↔
      R ≤ (frames.map
            (fun f =>
              ((XhrStreamingTransport.encode_frame f).length : Int))).sum) :=
  ⟨rfl, sendFrames_finished_iff frames (XhrStreamingTransport.post R) rfl hR⟩

/-- A 2999-character frame (encoded to 3000 bytes). -/
def bigFrame : String :=
  String.mk (List.replicate 2999 'x')

/-- **C7 counterexample.**  With `response_limit = 4096`, after the
2049-byte prelude and a 3000-byte encoded frame the cumulative bytes
written are 5049 ≥ 4096, yet the response is NOT finished (the budget
only counted the 3000 frame bytes), refuting the claim that the
prelude counts towards the limit. -/
theorem C7_prelude_not_counted :
    (XhrStreamingTransport.send (XhrStreamingTransport.post 4096)
        bigFrame).finished = false ∧
    4096 ≤ (XhrStreamingTransport.prelude.length : Int) +
        ((XhrStreamingTransport.encode_frame bigFrame).length : Int) := by
  have hb : bigFrame.length = 2999 := by
    show (List.replicate 2999 'x').length = 2999
    rw [List.length_replicate]
  have hn : ("\n" : String).length = 1 := rfl
  have h2 : (XhrStreamingTransport.encode_frame bigFrame).length = 3000 := by
    unfold XhrStreamingTransport.encode_frame
    rw [String.length_append, hb, hn]
  have h1 : XhrStreamingTransport.prelude.length = 2049 := by
    show (List.replicate 2048 'h' ++ ['\n']).length = 2049
    rw [List.length_append, List.length_replicate]
    rfl
  constructor
  · unfold XhrStreamingTransport.send StreamingTransport.send_raw
      StreamingTransport.should_finish XhrStreamingTransport.post
    rw [h2]
    norm_num
  · rw [h1, h2]
    decide

/-- Witness for the corrected C7: with `response_limit = 8`, two
4-byte encoded frames finish the response. -/
theorem C7_streaming_budget_witness :
    (XhrStreamingTransport.sendFrames (XhrStreamingTransport.post 8)
        ["aaa", "bbb"]).finished = true :=
  ((C7_streaming_budget_excludes_prelude 8 ["aaa", "bbb"]
      (by decide)).2).mpr (by decide)

/-! ## Claim C9 -/

/-- `on_close` never changes the `close_reason` field. -/
theorem on_close_fst_close_reason (s : Session) :
    (BaseSession.on_close s).1.close_reason = s.close_reason := by
  unfold BaseSession.on_close
  by_cases hc : s.conn <;>
    simp only [hc, if_true, if_false] <;>
    cases hst : s.send_transport <;>
      cases hrt : s.recv_transport <;>
        simp_all <;>
          split <;> simp_all <;>
            (try (split <;> simp_all))

/-- When the session is bound to a conn object, `on_close` dispatches
`conn.session_closed()` (the application's close callback). -/
theorem on_close_conn_event (s : Session) (hc : s.conn = true) :
    Event.connSessionClosed s.session_id ∈ (BaseSession.on_close s).2.1 := by
  unfold BaseSession.on_close
  simp only [hc, if_true]
  cases hst : s.send_transport <;>
    cases hrt : s.recv_transport <;>
        simp_all <;>
          split <;> simp_all <;>
            (try (split <;> simp_all))

/-- **C9** (confirmed).  `SessionPool.remove(session_id)` on a
registered id deregisters the session from `sessions`, `cycles` and
the heap (leaving other ids untouched), calls `session.close()` — a
session not yet CLOSING/CLOSED moves to CLOSING with close reason
`(3000, 'Go away!')` and its close callback fires — and returns `True`
regardless of whether `close()` raised (the exception is logged and
swallowed).  Stated for sessions with no transports attached (the
usual GC-removal situation), where the session model is exact: an
attached transport's `session_closed` reaction would further advance
the session in the transport layer. -/
theorem C9_remove_closes_and_returns_true (p : SessionPool) (sid : String)
    (s : Session) (c : Int)
    (hs : getA p.sessions sid = Option.some s)
    (hc : getA p.cycles sid = Option.some c) (hc0 : c ≠ 0)
    (hconn : s.conn = true)
    (_hsendt : s.send_transport = Option.none)
    (_hrecvt : s.recv_transport = Option.none)
    (hnotclosed : StateMixin.closed s = false) :
    (SessionPool.remove p sid).2.1 = true ∧
    getA (SessionPool.remove p sid).1.sessions sid = Option.none ∧
    getA (SessionPool.remove p sid).1.cycles sid = Option.none ∧
    (∀ k, k ≠ sid →
        getA (SessionPool.remove p sid).1.sessions k = getA p.sessions k ∧
        getA (SessionPool.remove p sid).1.cycles k = getA p.cycles k) ∧
    (SessionPool.remove p sid).1.pool = p.pool.erase (c, s) ∧
    (SessionPool.remove p sid).2.2.1 =
      Option.some (BaseSession.close s 3000 "Go away!").1 ∧
    (BaseSession.close s 3000 "Go away!").1.state = SessionState.CLOSING ∧
    (BaseSession.close s 3000 "Go away!").1.close_reason =
      Option.some (3000, "Go away!") ∧
    Event.connSessionClosed s.session_id ∈ (SessionPool.remove p sid).2.2.2
    := by
  have hclose1 : (BaseSession.close s 3000 "Go away!").1.state =
      SessionState.CLOSING := by
    unfold BaseSession.close
    rw [if_neg (by simp [hnotclosed])]
    have h := on_close_fst_state
      { s with
        state := SessionState.CLOSING,
        close_reason := Option.some (3000, "Go away!") }
    simpa using h
  have hclose2 : (BaseSession.close s 3000 "Go away!").1.close_reason =
      Option.some (3000, "Go away!") := by
    unfold BaseSession.close
    rw [if_neg (by simp [hnotclosed])]
    have h := on_close_fst_close_reason
      { s with
        state := SessionState.CLOSING,
        close_reason := Option.some (3000, "Go away!") }
    simpa using h
  have hev : Event.connSessionClosed s.session_id ∈
      (BaseSession.close s 3000 "Go away!").2.1 := by
    unfold BaseSession.close
    rw [if_neg (by simp [hnotclosed])]
    have h := on_close_conn_event
      { s with
        state := SessionState.CLOSING,
        close_reason := Option.some (3000, "Go away!") } (by simpa using hconn)
    simpa using h
  have hrem : SessionPool.remove p sid =
      ({ p with
          sessions := delA p.sessions sid,
          cycles := delA p.cycles sid,
          pool := p.pool.erase (c, s) },
       true,
       Option.some (BaseSession.close s 3000 "Go away!").1,
       (BaseSession.close s 3000 "Go away!").2.1) := by
    unfold SessionPool.remove
    rw [hs]
    simp only [hc, hc0, if_true]
    have : BaseSession.close s =
        BaseSession.close s 3000 "Go away!" := rfl
    simp [hc0]
  rw [hrem]
  refine ⟨rfl, ?_, ?_, ?_, rfl, rfl, hclose1, hclose2, hev⟩
  · simp [getA_delA]
  · simp [getA_delA]
  · intro k hk
    constructor <;> simp [getA_delA, hk]

/-- Concrete pool for the C9 witness: one open, bound session. -/
def sessC9 : Session :=
  { session_id := "x", state := SessionState.OPEN, ttl := 30,
    expires_at := 60, conn := true }

/-- Concrete pool holding `sessC9`. -/
def poolC9 : SessionPool :=
  { sessions := [("x", sessC9)], cycles := [("x", 42)],
    pool := [(42, sessC9)] }

/-- Witness for C9: removing the only registered session returns
`True`, empties the registry and heap, and the closed session is
CLOSING with reason `(3000, 'Go away!')`. -/
theorem C9_remove_witness :
    (SessionPool.remove poolC9 "x").2.1 = true ∧
    getA (SessionPool.remove poolC9 "x").1.sessions "x" = Option.none ∧
    (SessionPool.remove poolC9 "x").1.pool = [] ∧
    (BaseSession.close sessC9 3000 "Go away!").1.state =
      SessionState.CLOSING := by
  have h := C9_remove_closes_and_returns_true poolC9 "x" sessC9 42
    rfl rfl (by decide) rfl rfl rfl rfl
  refine ⟨h.1, h.2.1, ?_, h.2.2.2.2.2.2.1⟩
  rw [h.2.2.2.2.1]
  decide

/-! ## Claim C10 -/

/-- **C10** (confirmed).  `Endpoint.broadcast(message, raw, exclude)`
ignores its `raw` argument entirely: every non-excluded active session
gets `sess.send(message)` with `send`'s default `raw=False`, so the
message is JSON-encoded (again) for each recipient — the re-encoded
frame `a[enc(message)]` is what reaches the wire. -/
theorem C10_broadcast_reencodes (e : Endpoint) (msg : String)
    (excl : List String) (enc : String → String) (clock : Int) :
    (∀ raw1 raw2,
        Endpoint.broadcast e msg raw1 excl enc clock =
          Endpoint.broadcast e msg raw2 excl enc clock) ∧
    (∀ sid s t, (sid, s) ∈ e.active_sessions →
        ¬(excl ≠ [] ∧ s.session_id ∈ excl) →
        s.send_transport = Option.some t → t.failing = false →
        ("a[" ++ enc msg ++ "]") ∈
          (Endpoint.broadcast e msg true excl enc clock).2) := by
  constructor
  · intro raw1 raw2
    rfl
  · intro sid s t hmem hexcl hst hfail
    unfold Endpoint.broadcast
    simp only [List.mem_flatten, List.mem_map]
    refine ⟨(if excl ≠ [] ∧ s.session_id ∈ excl then
              ((sid, s), ([] : List String))
            else
              let r := BaseSession.send s msg false enc clock
              ((sid, r.1), r.2)).2, ⟨_, ⟨(sid, s), hmem, rfl⟩, rfl⟩, ?_⟩
    rw [if_neg hexcl]
    unfold BaseSession.send BaseSession.send_frame BaseSession.write
    simp [hst, hfail]

/-- Endpoint with one active session for the C10 witness. -/
def endC10 : Endpoint :=
  { active_sessions :=
      [("w", { session_id := "w", state := SessionState.OPEN, ttl := 30,
               expires_at := 40,
               send_transport := Option.some okTransport })] }

/-- A concrete "encoder" distinguishing encoded from raw payloads. -/
def encC10 : String → String := fun s => "<" ++ s ++ ">"

/-- Witness for C10: broadcasting `"m"` with `raw=True` still delivers
the re-encoded frame `a[<m>]`. -/
theorem C10_broadcast_witness :
    ("a[" ++ encC10 "m" ++ "]") ∈
      (Endpoint.broadcast endC10 "m" true [] encC10 100).2 :=
  (C10_broadcast_reencodes endC10 "m" [] encC10 100).2 "w"
    { session_id := "w", state := SessionState.OPEN, ttl := 30,
      expires_at := 40, send_transport := Option.some okTransport }
    okTransport (by simp [endC10]) (by simp) rfl rfl

/-! ## Claim C4 -/

/-- A heap entry still to be visited this GC pass: its session's cycle
stamp is behind the pass time `now`. -/
def gcCounted (now : Int) (cycles : List (String × Int))
    (e : Int × Session) : Bool :=
  match getA cycles e.2.session_id with
  | Option.some c => decide (c < now)
  | Option.none => false

/-- Number of heap entries still to be visited: the GC loop's
termination measure. -/
def gcMeasure (now : Int) (p : SessionPool) : Nat :=
  p.pool.countP (gcCounted now p.cycles)

/-- Deleting a cycles key only removes entries from the "to visit"
set. -/
theorem gcCounted_delA (now : Int) (cycles : List (String × Int))
    (sid : String) (e : Int × Session)
    (h : gcCounted now (delA cycles sid) e = true) :
    gcCounted now cycles e = true := by
  unfold gcCounted at h ⊢
  rw [getA_delA] at h
  by_cases hk : e.2.session_id = sid
  · simp [hk] at h
  · rw [if_neg hk] at h
    exact h

/-- Restamping a session with `now` only removes entries from the
"to visit" set. -/
theorem gcCounted_setA (now : Int) (cycles : List (String × Int))
    (sid : String) (e : Int × Session)
    (h : gcCounted now (setA cycles sid now) e = true) :
    gcCounted now cycles e = true := by
  unfold gcCounted at h ⊢
  rw [getA_setA] at h
  by_cases hk : e.2.session_id = sid
  · rw [if_pos hk] at h
    simp at h
  · rw [if_neg hk] at h
    exact h

/-- `remove` leaves the heap equal or one entry smaller, and the
cycles dict equal or with exactly the removed id deleted. -/
theorem remove_result (p : SessionPool) (sid : String) :
    ((SessionPool.remove p sid).1.cycles = p.cycles ∨
      (SessionPool.remove p sid).1.cycles = delA p.cycles sid) ∧
    ((SessionPool.remove p sid).1.pool = p.pool ∨
      ∃ x, (SessionPool.remove p sid).1.pool = p.pool.erase x) := by
  unfold SessionPool.remove
  cases hs : getA p.sessions sid with
  | none => exact ⟨Or.inl rfl, Or.inl rfl⟩
  | some sess =>
      dsimp only
      cases hc : getA p.cycles sid with
      | none => exact ⟨Or.inr rfl, Or.inl rfl⟩
      | some c =>
          by_cases hc0 : c = 0
          · refine ⟨Or.inr ?_, Or.inl ?_⟩ <;> simp [hc0]
          · refine ⟨Or.inr ?_, Or.inr ⟨(c, sess), ?_⟩⟩ <;> simp [hc0]

/-- After `remove`, the "to visit" count does not grow. -/
theorem gcMeasure_remove_le (now : Int) (p : SessionPool) (sid : String) :
    gcMeasure now (SessionPool.remove p sid).1 ≤ gcMeasure now p := by
  obtain ⟨hcy, hpl⟩ := remove_result p sid
  unfold gcMeasure
  have hsub : (SessionPool.remove p sid).1.pool.countP
      (gcCounted now (SessionPool.remove p sid).1.cycles) ≤
      p.pool.countP (gcCounted now (SessionPool.remove p sid).1.cycles) := by
    rcases hpl with h | ⟨x, h⟩
    · rw [h]
    · rw [h]
      exact (List.erase_sublist x p.pool).countP_le _
  refine le_trans hsub ?_
  rcases hcy with h | h
  · rw [h]
  · rw [h]
    exact List.countP_mono_left (fun e _ => gcCounted_delA now p.cycles sid e)

/-- One fuel unit per unvisited entry suffices: the GC loop never runs
out of fuel when given more than the measure. -/
theorem gcLoop_isSome (now : Int) :
    ∀ (fuel : Nat) (p : SessionPool) (v : List String),
      gcMeasure now p < fuel →
      (SessionPool.gcLoop now fuel p v).isSome = true := by
  intro fuel
  induction fuel with
  | zero => intro p v h; exact absurd h (Nat.not_lt_zero _)
  | succ fuel ih =>
      intro p v h
      unfold SessionPool.gcLoop
      cases hpool : p.pool with
      | nil => rfl
      | cons e rest =>
          obtain ⟨st, sess⟩ := e
          dsimp only
          cases hcy : getA p.cycles sess.session_id with
          | none => rfl
          | some cycle =>
              dsimp only
              by_cases hge : now ≤ cycle
              · simp [hge]
              · rw [if_neg hge]
                have hlt : cycle < now := lt_of_not_le hge
                have hcnt : gcCounted now p.cycles (st, sess) = true := by
                  unfold gcCounted
                  simp [hcy, hlt]
                have hmeas : p.pool.countP (gcCounted now p.cycles) =
                    rest.countP (gcCounted now p.cycles) + 1 := by
                  rw [hpool, List.countP_cons_of_pos _ _ hcnt]
                have hrest : rest.countP (gcCounted now p.cycles) < fuel := by
                  have := h
                  unfold gcMeasure at this
                  omega
                by_cases hexp :
                    BaseSession.has_expired sess (Option.some now) now = true
                · simp only [hexp, if_true]
                  apply ih
                  calc gcMeasure now
                        (SessionPool.remove { p with pool := rest }
                          sess.session_id).1
                      ≤ gcMeasure now { p with pool := rest } :=
                        gcMeasure_remove_le now _ _
                    _ = rest.countP (gcCounted now p.cycles) := rfl
                    _ < fuel := hrest
                · simp only [hexp, if_false]
                  apply ih
                  have hperm :
                      (SessionPool.heappush rest (now, sess)).countP
                        (gcCounted now (setA p.cycles sess.session_id now)) =
                      ((now, sess) :: rest).countP
                        (gcCounted now (setA p.cycles sess.session_id now)) :=
                    (List.perm_orderedInsert _ _ _).countP_eq _
                  have hhead : gcCounted now
                      (setA p.cycles sess.session_id now) (now, sess)
                        = false := by
                    unfold gcCounted
                    rw [getA_setA, if_pos rfl]
                    simp
                  have hrest2 :
                      rest.countP
                        (gcCounted now (setA p.cycles sess.session_id now)) ≤
                      rest.countP (gcCounted now p.cycles) :=
                    List.countP_mono_left
                      (fun e _ => gcCounted_setA now p.cycles sess.session_id e)
                  unfold gcMeasure
                  simp only
                  rw [hperm, List.countP_cons_of_neg _ _ (by simp [hhead])]
                  omega

/-- Along a GC pass a session id is popped (visited) at most once.
Invariant: the already-visited ids are pairwise distinct, and any heap
entry whose id was already visited has a cycle stamp ≥ `now` (it was
restamped) or no cycle entry at all (it was removed) — the loop only
pops entries stamped < `now`. -/
theorem gcLoop_nodup (now : Int) :
    ∀ (fuel : Nat) (p : SessionPool) (v : List String),
      (p.pool.map (fun e => e.2.session_id)).Nodup →
      v.Nodup →
      (∀ e ∈ p.pool, e.2.session_id ∈ v →
          ∀ c, getA p.cycles e.2.session_id = Option.some c → now ≤ c) →
      ∀ q vis, SessionPool.gcLoop now fuel p v = Option.some (q, vis) →
        vis.Nodup := by
  intro fuel
  induction fuel with
  | zero =>
      intro p v _ _ _ q vis h
      simp [SessionPool.gcLoop] at h
  | succ fuel ih =>
      intro p v hnod hvnod hinv q vis h
      unfold SessionPool.gcLoop at h
      cases hpool : p.pool with
      | nil =>
          rw [hpool] at h
          simp only [Option.some.injEq, Prod.mk.injEq] at h
          exact h.2 ▸ hvnod
      | cons e0 rest =>
          obtain ⟨st, sess⟩ := e0
          rw [hpool] at h
          dsimp only at h
          cases hcy : getA p.cycles sess.session_id with
          | none =>
              rw [hcy] at h
              simp only [Option.some.injEq, Prod.mk.injEq] at h
              exact h.2 ▸ hvnod
          | some cycle =>
              rw [hcy] at h
              dsimp only at h
              by_cases hge : now ≤ cycle
              · rw [if_pos hge] at h
                simp only [Option.some.injEq, Prod.mk.injEq] at h
                exact h.2 ▸ hvnod
              · rw [if_neg hge] at h
                have hlt : cycle < now := lt_of_not_le hge
                have hmem_head : (st, sess) ∈ p.pool := by
                  rw [hpool]; exact List.mem_cons_self _ _
                have hsid_not : sess.session_id ∉ v := by
                  intro hmemv
                  exact absurd (hinv (st, sess) hmem_head hmemv cycle hcy)
                    (not_le.mpr hlt)
                have hv' : (v ++ [sess.session_id]).Nodup := by
                  rw [List.nodup_append]
                  refine ⟨hvnod, List.nodup_singleton _, ?_⟩
                  intro a ha hb
                  rw [List.mem_singleton] at hb
                  exact hsid_not (hb ▸ ha)
                have hnod' : (sess.session_id ::
                    rest.map (fun e => e.2.session_id)).Nodup := by
                  have := hnod
                  rw [hpool] at this
                  simpa using this
                have hrestnod : (rest.map (fun e => e.2.session_id)).Nodup :=
                  (List.nodup_cons.mp hnod').2
                have hsid_notrest : sess.session_id ∉
                    rest.map (fun e => e.2.session_id) :=
                  (List.nodup_cons.mp hnod').1
                by_cases hexp :
                    BaseSession.has_expired sess (Option.some now) now = true
                · rw [if_pos hexp] at h
                  obtain ⟨hcy2, hpl2⟩ :=
                    remove_result { p with pool := rest } sess.session_id
                  have hsub : (SessionPool.remove { p with pool := rest }
                      sess.session_id).1.pool.Sublist rest := by
                    rcases hpl2 with h2 | ⟨x, h2⟩
                    · rw [h2]
                    · rw [h2]
                      exact List.erase_sublist x rest
                  refine ih _ _ ?_ hv' ?_ q vis h
                  · exact hrestnod.sublist (hsub.map _)
                  · intro e he hmemv c hc
                    have herest : e ∈ rest := hsub.subset he
                    have hene : e.2.session_id ≠ sess.session_id := by
                      intro heq
                      exact hsid_notrest
                        (heq ▸ List.mem_map_of_mem _ herest)
                    have hmemv' : e.2.session_id ∈ v := by
                      rcases List.mem_append.mp hmemv with hmv | hmv
                      · exact hmv
                      · exact absurd (List.mem_singleton.mp hmv) hene
                    have hmem_p : e ∈ p.pool := by
                      rw [hpool]; exact List.mem_cons_of_mem _ herest
                    rcases hcy2 with h2 | h2
                    · rw [h2] at hc
                      exact hinv e hmem_p hmemv' c hc
                    · rw [h2, getA_delA, if_neg hene] at hc
                      exact hinv e hmem_p hmemv' c hc
                · rw [if_neg hexp] at h
                  have hperm : (SessionPool.heappush rest (now, sess)).Perm
                      ((now, sess) :: rest) :=
                    List.perm_orderedInsert _ _ _
                  refine ih _ _ ?_ hv' ?_ q vis h
                  · have hpm : ((SessionPool.heappush rest
                        (now, sess)).map (fun e => e.2.session_id)).Perm
                        (sess.session_id ::
                          rest.map (fun e => e.2.session_id)) :=
                      hperm.map _
                    exact hpm.nodup_iff.mpr hnod'
                  · intro e he hmemv c hc
                    rcases List.mem_cons.mp (hperm.mem_iff.mp he)
                      with he2 | he2
                    · subst he2
                      rw [getA_setA, if_pos rfl] at hc
                      rw [Option.some.injEq] at hc
                      omega
                    · have hene : e.2.session_id ≠ sess.session_id := by
                        intro heq
                        exact hsid_notrest
                          (heq ▸ List.mem_map_of_mem _ he2)
                      have hmemv' : e.2.session_id ∈ v := by
                        rcases List.mem_append.mp hmemv with hmv | hmv
                        · exact hmv
                        · exact absurd (List.mem_singleton.mp hmv) hene
                      have hmem_p : e ∈ p.pool := by
                        rw [hpool]; exact List.mem_cons_of_mem _ he2
                      rw [getA_setA, if_neg hene] at hc
                      exact hinv e hmem_p hmemv' c hc

/-- **C4** (confirmed).  Given a well-formed pool (heap ids distinct —
the value-level rendering of `cycles` being keyed by the session
object — and every heap entry's stamp recorded in `cycles`), a GC pass
terminates within `pool.length + 1` loop iterations (the fuelled loop
never returns `Option.none`) and visits every session at most once
(the visited-id list is duplicate-free).  Both facts hold even without
the stamp hypothesis; it is stated as the claim states it. -/
theorem C4_gc_terminates_and_visits_once (p : SessionPool) (now : Int)
    (hsid : (p.pool.map (fun e => e.2.session_id)).Nodup)
    (_hstamp : ∀ e ∈ p.pool,
        getA p.cycles e.2.session_id = Option.some e.1) :
    (SessionPool.gc p now).isSome = true ∧
    ∀ q vis, SessionPool.gc p now = Option.some (q, vis) → vis.Nodup := by
  unfold SessionPool.gc
  by_cases hp : p.pool = []
  · rw [if_pos hp]
    refine ⟨rfl, ?_⟩
    intro q vis h
    simp only [Option.some.injEq, Prod.mk.injEq] at h
    exact h.2 ▸ List.nodup_nil
  · rw [if_neg hp]
    constructor
    · apply gcLoop_isSome
      have : gcMeasure now p ≤ p.pool.length := List.countP_le_length _
      omega
    · intro q vis h
      refine gcLoop_nodup now _ p [] hsid List.nodup_nil ?_ q vis h
      intro e _ hmem
      simp at hmem

/-- Expired session for the C4 witness. -/
def sessC4a : Session :=
  { session_id := "a", state := SessionState.OPEN, ttl := 30,
    expires_at := 40 }

/-- Alive session for the C4 witness. -/
def sessC4b : Session :=
  { session_id := "b", state := SessionState.OPEN, ttl := 30,
    expires_at := 100 }

/-- Pool with one expired and one alive session, cycle stamps matching
the heap stamps. -/
def poolC4 : SessionPool :=
  { sessions := [("a", sessC4a), ("b", sessC4b)],
    cycles := [("a", 10), ("b", 12)],
    pool := [(10, sessC4a), (12, sessC4b)] }

/-- Witness for C4: the pass over `poolC4` at time 50 terminates and
its visited list is duplicate-free. -/
theorem C4_gc_witness :
    (SessionPool.gc poolC4 50).isSome = true ∧
    ((SessionPool.gc poolC4 50).getD ({}, [])).2.Nodup :=
  ⟨(C4_gc_terminates_and_visits_once poolC4 50 (by decide) (by decide)).1,
   (C4_gc_terminates_and_visits_once poolC4 50 (by decide) (by decide)).2
     ((SessionPool.gc poolC4 50).getD ({}, [])).1
     ((SessionPool.gc poolC4 50).getD ({}, [])).2 rfl⟩

end SockJS
